import Mathlib

/-!
Shallow embedding of `src/weather-providers/pirateweather-provider.ts`
(the `PirateWeatherProvider` adapter of `ha-wall-clock-card`).

JavaScript numbers are embedded as rationals (`ℚ`); a field that may be
`undefined` at runtime is embedded as an `Option`.  A JavaScript value is
"falsy" when it is `undefined` or the number `0` (for numbers) or the empty
string (for strings); the helpers `numFalsy` and the `if s = "" …` branches
reproduce the `!x` / `x || y` idioms of the source.  The asynchronous
`fetch` boundary is embedded as an explicit `FetchOutcome` argument: the
transport either rejects with a thrown value or resolves with an HTTP
response whose body parse may itself fail.
-/

namespace PirateWeather

/-- Modelled from the spec: the unified condition enum `Weather`, imported by
the source from `../image-sources` (a module not among the provided sources).
Spec §3 lists it as a closed enum with exactly these members, every vendor
icon code mapping to exactly one of them and `All` the generic/unknown
fallback. -/
inductive Weather where
  | Sunny
  | ClearNight
  | Rainy
  | Snowy
  | Windy
  | Foggy
  | Cloudy
  | PartlyCloudy
  | PartlyCloudyNight
  | Hail
  | Lightning
  | Exceptional
  | All
  deriving DecidableEq, Repr

/-- Modelled from the spec: `WeatherProviderConfig` from `./types` (not among
the provided sources); spec §3 gives `{ apiKey, latitude, longitude, units }`.
Coordinates and the unit code may be absent at runtime, hence `Option` /
empty-string conventions. -/
structure WeatherProviderConfig where
  apiKey : String
  latitude : Option ℚ
  longitude : Option ℚ
  units : String
  deriving DecidableEq, Repr

/-- Vendor-shaped record mirroring the `PirateWeatherCurrently` interface. -/
structure PirateWeatherCurrently where
  time : ℚ
  summary : String
  icon : String
  temperature : ℚ
  apparentTemperature : ℚ
  humidity : ℚ
  pressure : ℚ
  windSpeed : ℚ
  windGust : Option ℚ
  windBearing : ℚ
  cloudCover : ℚ
  uvIndex : ℚ
  visibility : ℚ
  deriving DecidableEq, Repr

/-- Vendor-shaped record mirroring the `PirateWeatherDaily` interface.  The
`temperatureMax/Min` and `temperatureHigh/Low` fields are embedded as
`Option ℚ` because the source guards them with `||` fallbacks (the vendor
schema has historically used either pair). -/
structure PirateWeatherDaily where
  time : ℚ
  summary : String
  icon : String
  temperatureHigh : Option ℚ
  temperatureLow : Option ℚ
  temperatureMax : Option ℚ
  temperatureMin : Option ℚ
  apparentTemperatureHigh : ℚ
  apparentTemperatureLow : ℚ
  humidity : ℚ
  pressure : ℚ
  windSpeed : ℚ
  windGust : Option ℚ
  windBearing : ℚ
  cloudCover : ℚ
  uvIndex : ℚ
  deriving DecidableEq, Repr

/-- The `daily` block of the vendor response. -/
structure PirateWeatherDailyBlock where
  summary : String
  icon : String
  data : List PirateWeatherDaily
  deriving DecidableEq, Repr

/-- Vendor-shaped record mirroring the `PirateWeatherResponse` interface. -/
structure PirateWeatherResponse where
  latitude : ℚ
  longitude : ℚ
  timezone : String
  currently : PirateWeatherCurrently
  daily : PirateWeatherDailyBlock
  deriving DecidableEq, Repr

/-- Modelled from the spec: the unified `current` block of `WeatherData`
(`./types` is not among the provided sources); fields per spec §3/§4 and the
object literal built in `transformResponse`. -/
structure CurrentWeather where
  temperature : ℚ
  feelsLike : ℚ
  condition : String
  conditionUnified : Weather
  icon : String
  humidity : ℚ
  pressure : ℚ
  windSpeed : ℚ
  windGust : Option ℚ
  windBearing : ℚ
  cloudCover : ℚ
  uvIndex : ℚ
  visibility : ℚ
  deriving DecidableEq, Repr

/-- Modelled from the spec: the unified `DailyWeather` record (`./types` is
not among the provided sources); fields per the object literal built in
`transformDailyWeather`.  `date` holds the millisecond value passed to
`new Date(day.time * 1000)`. -/
structure DailyWeather where
  date : ℚ
  temperatureMax : Option ℚ
  temperatureMin : Option ℚ
  condition : String
  conditionUnified : Weather
  icon : String
  humidity : ℚ
  pressure : ℚ
  windSpeed : ℚ
  windGust : Option ℚ
  windBearing : ℚ
  cloudCover : ℚ
  uvIndex : ℚ
  deriving DecidableEq, Repr

/-- The `location` block of the unified `WeatherData`. -/
structure LocationData where
  latitude : ℚ
  longitude : ℚ
  timezone : String
  deriving DecidableEq, Repr

/-- Modelled from the spec: the unified `WeatherData` output (`./types` is not
among the provided sources); shape per spec §3 and `transformResponse`. -/
structure WeatherData where
  current : CurrentWeather
  daily : List DailyWeather
  location : LocationData
  units : String
  deriving DecidableEq, Repr

/-- JavaScript falsiness of an optional number: `undefined` or `0`
(`!x` on a `number | undefined`). -/
def numFalsy : Option ℚ → Bool
  | none => true
  | some q => q == 0

/-- The JavaScript `a || b` idiom on optional numbers: keep `a` when it is
present and truthy (non-zero), else fall back to `b`. -/
def jsOrNum (a b : Option ℚ) : Option ℚ :=
  match a with
  | none => b
  | some q => if q == 0 then b else some q

/-- The icon→condition table of `mapIconToCondition` (`iconMap`). -/
def iconConditionTable : List (String × Weather) :=
  [("clear-day", Weather.Sunny),
   ("clear-night", Weather.ClearNight),
   ("rain", Weather.Rainy),
   ("snow", Weather.Snowy),
   ("sleet", Weather.Snowy),
   ("wind", Weather.Windy),
   ("fog", Weather.Foggy),
   ("cloudy", Weather.Cloudy),
   ("partly-cloudy-day", Weather.PartlyCloudy),
   ("partly-cloudy-night", Weather.PartlyCloudyNight),
   ("hail", Weather.Hail),
   ("thunderstorm", Weather.Lightning),
   ("tornado", Weather.Exceptional)]

/-- `mapIconToCondition`: look the icon code up in `iconMap`, falling back to
`Weather.All` (the source's `iconMap[icon] || Weather.All`; per the spec the
enum members are truthy values). -/
def mapIconToCondition (icon : String) : Weather :=
  (iconConditionTable.lookup icon).getD Weather.All

/-- The `baseIconUrl` constant of `getIconUrl`. -/
def baseIconUrl : String :=
  "https://raw.githubusercontent.com/manifestinteractive/weather-underground-icons/master/dist/icons/white/png/64x64"

/-- The icon→URL table of `getIconUrl` (`iconMapping`). -/
def iconUrlTable : List (String × String) :=
  [("clear-day", baseIconUrl ++ "/clear.png"),
   ("clear-night", baseIconUrl ++ "/nt_clear.png"),
   ("rain", baseIconUrl ++ "/rain.png"),
   ("snow", baseIconUrl ++ "/snow.png"),
   ("sleet", baseIconUrl ++ "/sleet.png"),
   ("wind", baseIconUrl ++ "/wind.png"),
   ("fog", baseIconUrl ++ "/fog.png"),
   ("cloudy", baseIconUrl ++ "/cloudy.png"),
   ("partly-cloudy-day", baseIconUrl ++ "/partlycloudy.png"),
   ("partly-cloudy-night", baseIconUrl ++ "/nt_partlycloudy.png"),
   ("hail", baseIconUrl ++ "/sleet.png"),
   ("thunderstorm", baseIconUrl ++ "/tstorms.png"),
   ("tornado", baseIconUrl ++ "/tornado.png")]

/-- `getIconUrl`: look the icon code up in `iconMapping`, falling back to the
generic cloudy image (`iconMapping[icon] || baseIconUrl + "/cloudy.png"`). -/
def getIconUrl (icon : String) : String :=
  (iconUrlTable.lookup icon).getD (baseIconUrl ++ "/cloudy.png")

/-- `formatCondition`: `summary || 'Unknown'`. -/
def formatCondition (summary : String) : String :=
  if summary = "" then "Unknown" else summary

/-- The units table of `getUnitsDescription` (`unitsMap`). -/
def unitsTable : List (String × String) :=
  [("us", "imperial"),
   ("si", "metric"),
   ("ca", "metric"),
   ("uk2", "hybrid")]

/-- `getUnitsDescription`: look the unit-system code up in `unitsMap`,
falling back to `"imperial"`. -/
def getUnitsDescription (units : String) : String :=
  (unitsTable.lookup units).getD "imperial"

/-- `transformDailyWeather`: normalize one vendor daily entry.  (The `units`
parameter is accepted but unused, as in the source.) -/
def transformDailyWeather (day : PirateWeatherDaily) (units : String) : DailyWeather :=
  { date := day.time * 1000
    temperatureMax := jsOrNum day.temperatureMax day.temperatureHigh
    temperatureMin := jsOrNum day.temperatureMin day.temperatureLow
    condition := formatCondition day.summary
    conditionUnified := mapIconToCondition day.icon
    icon := getIconUrl day.icon
    humidity := day.humidity * 100
    pressure := day.pressure
    windSpeed := day.windSpeed
    windGust := day.windGust
    windBearing := day.windBearing
    cloudCover := day.cloudCover * 100
    uvIndex := day.uvIndex }

/-- `transformResponse`: normalize the parsed vendor response into the unified
`WeatherData`. -/
def transformResponse (data : PirateWeatherResponse) (units : String) : WeatherData :=
  let currently := data.currently
  let daily := data.daily.data
  let conditionUnified := mapIconToCondition currently.icon
  let currentIcon := getIconUrl currently.icon
  { current :=
      { temperature := currently.temperature
        feelsLike := currently.apparentTemperature
        condition := formatCondition currently.summary
        conditionUnified := conditionUnified
        icon := currentIcon
        humidity := currently.humidity * 100
        pressure := currently.pressure
        windSpeed := currently.windSpeed
        windGust := currently.windGust
        windBearing := currently.windBearing
        cloudCover := currently.cloudCover * 100
        uvIndex := currently.uvIndex
        visibility := currently.visibility }
    daily := (daily.take 7).map (fun day => transformDailyWeather day units)
    location :=
      { latitude := data.latitude
        longitude := data.longitude
        timezone := data.timezone }
    units := getUnitsDescription units }

/-- A value thrown inside the `try` block: in JavaScript either an `Error`
carrying a message or some other thrown value (the `error instanceof Error`
distinction of the `catch` clause). -/
inductive JSThrown where
  | isError (message : String)
  | notError
  deriving DecidableEq, Repr

/-- The resolved HTTP response at the `fetch` boundary: status information
plus the outcome of `response.json()` (which may itself reject). -/
structure HttpResponse where
  ok : Bool
  status : Nat
  statusText : String
  json : Except JSThrown PirateWeatherResponse

/-- The outcome of the `fetch` call itself: the promise either rejects or
resolves with an HTTP response. -/
inductive FetchOutcome where
  | rejected (e : JSThrown)
  | resolved (r : HttpResponse)

/-- The body of the `try` block of `fetchWeatherAsync`: check `response.ok`,
parse the body, transform.  Failures are the thrown values the `catch` clause
receives. -/
def tryFetchBody (units : String) (net : FetchOutcome) : Except JSThrown WeatherData :=
  match net with
  | FetchOutcome.rejected e => Except.error e
  | FetchOutcome.resolved r =>
    if !r.ok then
      Except.error (JSThrown.isError
        ("Pirate Weather API error: " ++ toString r.status ++ " " ++ r.statusText))
    else
      match r.json with
      | Except.error e => Except.error e
      | Except.ok data => Except.ok (transformResponse data units)

/-- `fetchWeatherAsync`: validate the configuration, then run the network
interaction (supplied as the explicit `net` argument) with the `catch`-clause
re-wrapping of the source. -/
def fetchWeatherAsync (config : WeatherProviderConfig) (net : FetchOutcome) :
    Except String WeatherData :=
  if config.apiKey = "" then
    Except.error "Pirate Weather API key is required"
  else if numFalsy config.latitude || numFalsy config.longitude then
    Except.error "Latitude and longitude are required"
  else
    let units := if config.units = "" then "us" else config.units
    match tryFetchBody units net with
    | Except.ok w => Except.ok w
    | Except.error (JSThrown.isError msg) =>
        Except.error ("Failed to fetch Pirate Weather data: " ++ msg)
    | Except.error JSThrown.notError =>
        Except.error "Failed to fetch Pirate Weather data"

/-- `getDefaultConfig`: empty key, zero coordinates, `us` units. -/
def getDefaultConfig : WeatherProviderConfig :=
  { apiKey := ""
    latitude := some 0
    longitude := some 0
    units := "us" }

/-- A sample vendor daily entry, used for concrete evaluations. -/
def mkSampleDay (t : ℚ) : PirateWeatherDaily :=
  { time := t
    summary := "Clear"
    icon := "clear-day"
    temperatureHigh := some 15
    temperatureLow := some 5
    temperatureMax := some 20
    temperatureMin := some 4
    apparentTemperatureHigh := 18
    apparentTemperatureLow := 3
    humidity := 1/2
    pressure := 1013
    windSpeed := 5
    windGust := none
    windBearing := 180
    cloudCover := 1/4
    uvIndex := 3 }

/-- A sample vendor current block, used for concrete evaluations. -/
def sampleCurrently : PirateWeatherCurrently :=
  { time := 1700000000
    summary := "Clear"
    icon := "clear-day"
    temperature := 72
    apparentTemperature := 70
    humidity := 1/2
    pressure := 1013
    windSpeed := 5
    windGust := none
    windBearing := 180
    cloudCover := 1/4
    uvIndex := 3
    visibility := 10 }

/-- A sample vendor response with eight daily entries. -/
def sampleResponse8 : PirateWeatherResponse :=
  { latitude := 40
    longitude := -105
    timezone := "America/Denver"
    currently := sampleCurrently
    daily :=
      { summary := "Clear week"
        icon := "clear-day"
        data := [mkSampleDay 1, mkSampleDay 2, mkSampleDay 3, mkSampleDay 4,
                 mkSampleDay 5, mkSampleDay 6, mkSampleDay 7, mkSampleDay 8] } }

/-- A sample vendor response with three daily entries. -/
def sampleResponse3 : PirateWeatherResponse :=
  { latitude := 40
    longitude := -105
    timezone := "America/Denver"
    currently := sampleCurrently
    daily :=
      { summary := "Clear days"
        icon := "clear-day"
        data := [mkSampleDay 1, mkSampleDay 2, mkSampleDay 3] } }

/-- A sample valid configuration, used for concrete evaluations. -/
def sampleConfig : WeatherProviderConfig :=
  { apiKey := "test-key"
    latitude := some 40
    longitude := some (-105)
    units := "us" }

/-- A lookup in an association list misses whenever the key differs from every
listed key: the shared shape of the three `table[k] || fallback` lookups of
the source. -/
theorem lookup_eq_none_of_not_mem_keys {β : Type} (l : List (String × β)) (a : String)
    (h : a ∉ l.map Prod.fst) : l.lookup a = none := by
  induction l with
  | nil => rfl
  | cons p t ih =>
    obtain ⟨k, v⟩ := p
    simp only [List.map_cons, List.mem_cons, not_or] at h
    have hb : (a == k) = false := beq_eq_false_iff_ne.mpr h.1
    simp [List.lookup, hb, ih h.2]

/-- Claim C1: `mapIconToCondition` sends every icon code of the condition
table to exactly the unified condition the table specifies, and every string
outside the table to `Weather.All` — always a defined value, never an
absent one. -/
theorem mapIconToCondition_matches_table :
    (mapIconToCondition "clear-day" = Weather.Sunny ∧
     mapIconToCondition "clear-night" = Weather.ClearNight ∧
     mapIconToCondition "rain" = Weather.Rainy ∧
     mapIconToCondition "snow" = Weather.Snowy ∧
     mapIconToCondition "sleet" = Weather.Snowy ∧
     mapIconToCondition "wind" = Weather.Windy ∧
     mapIconToCondition "fog" = Weather.Foggy ∧
     mapIconToCondition "cloudy" = Weather.Cloudy ∧
     mapIconToCondition "partly-cloudy-day" = Weather.PartlyCloudy ∧
     mapIconToCondition "partly-cloudy-night" = Weather.PartlyCloudyNight ∧
     mapIconToCondition "hail" = Weather.Hail ∧
     mapIconToCondition "thunderstorm" = Weather.Lightning ∧
     mapIconToCondition "tornado" = Weather.Exceptional) ∧
    ∀ s : String, s ∉ iconConditionTable.map Prod.fst →
      mapIconToCondition s = Weather.All := by
  refine ⟨by decide, ?_⟩
  intro s hs
  unfold mapIconToCondition
  rw [lookup_eq_none_of_not_mem_keys _ _ hs]
  rfl

/-- Witness for C1: the condition-table fallback at the unlisted code
`unknown-code`. -/
theorem mapIconToCondition_matches_table_witness :
    "unknown-code" ∉ iconConditionTable.map Prod.fst ∧
      mapIconToCondition "unknown-code" = Weather.All :=
  ⟨by decide, mapIconToCondition_matches_table.2 "unknown-code" (by decide)⟩

/-- Claim C8: `getUnitsDescription` follows its fixed table — `us` to
`imperial`, `si` and `ca` to `metric`, `uk2` to `hybrid` — and every code
outside the table to `imperial`. -/
theorem getUnitsDescription_matches_table :
    (getUnitsDescription "us" = "imperial" ∧
     getUnitsDescription "si" = "metric" ∧
     getUnitsDescription "ca" = "metric" ∧
     getUnitsDescription "uk2" = "hybrid") ∧
    ∀ s : String, s ∉ unitsTable.map Prod.fst →
      getUnitsDescription s = "imperial" := by
  refine ⟨by decide, ?_⟩
  intro s hs
  unfold getUnitsDescription
  rw [lookup_eq_none_of_not_mem_keys _ _ hs]
  rfl

/-- Witness for C8: the units-table fallback at the unlisted code `uk`. -/
theorem getUnitsDescription_matches_table_witness :
    "uk" ∉ unitsTable.map Prod.fst ∧ getUnitsDescription "uk" = "imperial" :=
  ⟨by decide, getUnitsDescription_matches_table.2 "uk" (by decide)⟩

/-- Claim C9: for every icon code outside the icon-URL table, `getIconUrl`
returns the generic cloudy image URL — a non-empty string, never an error or
an absent value — while the condition table's fallback for the same code is
the generic condition `Weather.All`. -/
theorem getIconUrl_fallback_cloudy (s : String)
    (h : s ∉ iconUrlTable.map Prod.fst) :
    getIconUrl s = baseIconUrl ++ "/cloudy.png" ∧
    getIconUrl s ≠ "" ∧
    (s ∉ iconConditionTable.map Prod.fst → mapIconToCondition s = Weather.All) := by
  have hurl : getIconUrl s = baseIconUrl ++ "/cloudy.png" := by
    unfold getIconUrl
    rw [lookup_eq_none_of_not_mem_keys _ _ h]
    rfl
  refine ⟨hurl, ?_, ?_⟩
  · rw [hurl]
    decide
  · intro hc
    unfold mapIconToCondition
    rw [lookup_eq_none_of_not_mem_keys _ _ hc]
    rfl

/-- Witness for C9: the icon-URL fallback at the unlisted code
`unknown-code`. -/
theorem getIconUrl_fallback_cloudy_witness :
    "unknown-code" ∉ iconUrlTable.map Prod.fst ∧
      getIconUrl "unknown-code" = baseIconUrl ++ "/cloudy.png" ∧
      getIconUrl "unknown-code" ≠ "" :=
  ⟨by decide,
   (getIconUrl_fallback_cloudy "unknown-code" (by decide)).1,
   (getIconUrl_fallback_cloudy "unknown-code" (by decide)).2.1⟩

/-- Claim C2: a configuration with an empty API key, or with an absent or
zero coordinate, makes `fetchWeatherAsync` fail with a configuration error —
the same error for every possible network outcome, so the result is settled
before any network interaction. -/
theorem fetchWeatherAsync_validates_config_before_network
    (config : WeatherProviderConfig)
    (h : config.apiKey = "" ∨
         numFalsy config.latitude = true ∨ numFalsy config.longitude = true) :
    ∃ msg : String, ∀ net : FetchOutcome,
      fetchWeatherAsync config net = Except.error msg := by
  by_cases h1 : config.apiKey = ""
  · exact ⟨"Pirate Weather API key is required",
      fun net => by simp [fetchWeatherAsync, h1]⟩
  · have h2 : (numFalsy config.latitude || numFalsy config.longitude) = true := by
      rcases h with h | h | h
      · exact absurd h h1
      · simp [h]
      · simp [h]
    exact ⟨"Latitude and longitude are required",
      fun net => by simp [fetchWeatherAsync, h1, h2]⟩

/-- Witness for C2: an empty API key, and separately a zero latitude, each
yield a network-independent configuration error. -/
theorem fetchWeatherAsync_validates_config_before_network_witness :
    (∃ msg : String, ∀ net : FetchOutcome,
      fetchWeatherAsync ⟨"", some 40, some (-105), "us"⟩ net = Except.error msg) ∧
    (∃ msg : String, ∀ net : FetchOutcome,
      fetchWeatherAsync ⟨"test-key", some 0, some (-105), "us"⟩ net = Except.error msg) :=
  ⟨fetchWeatherAsync_validates_config_before_network _ (Or.inl rfl),
   fetchWeatherAsync_validates_config_before_network _ (Or.inr (Or.inl (by decide)))⟩

/-- Claim C3: humidity and cloud cover, in the current block and in every
transformed daily entry, are rescaled to exactly one hundred times the
vendor's fractional value. -/
theorem humidity_cloudCover_rescaled (data : PirateWeatherResponse)
    (day : PirateWeatherDaily) (units : String) :
    (transformResponse data units).current.humidity = data.currently.humidity * 100 ∧
    (transformResponse data units).current.cloudCover = data.currently.cloudCover * 100 ∧
    (transformDailyWeather day units).humidity = day.humidity * 100 ∧
    (transformDailyWeather day units).cloudCover = day.cloudCover * 100 :=
  ⟨rfl, rfl, rfl, rfl⟩

/-- Claim C4: the unified daily sequence is the vendor daily array truncated
to its first seven entries, kept in their original order: with at least seven
vendor entries its length is exactly seven, with fewer it keeps them all, and
the entry at each index is the transform of the vendor entry at the same
index. -/
theorem transformResponse_daily_first7 (data : PirateWeatherResponse) (units : String) :
    (7 ≤ data.daily.data.length → (transformResponse data units).daily.length = 7) ∧
    (data.daily.data.length < 7 →
      (transformResponse data units).daily.length = data.daily.data.length) ∧
    ∀ i : Nat, i < (transformResponse data units).daily.length →
      (transformResponse data units).daily[i]? =
        (data.daily.data[i]?).map (fun day => transformDailyWeather day units) := by
  refine ⟨?_, ?_, ?_⟩
  · intro h
    simp only [transformResponse, List.length_map, List.length_take]
    omega
  · intro h
    simp only [transformResponse, List.length_map, List.length_take]
    omega
  · intro i hi
    simp only [transformResponse, List.length_map, List.length_take] at hi
    simp only [transformResponse, List.getElem?_map, List.getElem?_take]
    rw [if_pos (by omega)]

/-- Witness for C4: with eight vendor entries the output has seven, with
three it has three, and entry zero is the transform of vendor entry zero. -/
theorem transformResponse_daily_first7_witness :
    (transformResponse sampleResponse8 "us").daily.length = 7 ∧
    (transformResponse sampleResponse3 "us").daily.length = 3 ∧
    (transformResponse sampleResponse8 "us").daily[0]? =
      (sampleResponse8.daily.data[0]?).map (fun day => transformDailyWeather day "us") :=
  ⟨(transformResponse_daily_first7 sampleResponse8 "us").1 (by decide),
   (transformResponse_daily_first7 sampleResponse3 "us").2.1 (by decide),
   (transformResponse_daily_first7 sampleResponse8 "us").2.2 0 (by decide)⟩

/-- Claim C5: a daily entry's unified maximum temperature is exactly the
vendor `temperatureMax` whenever that field is present and truthy, whatever
`temperatureHigh` holds; when `temperatureMax` is absent or falsy (zero) the
unified value falls back to `temperatureHigh`; and symmetrically for
`temperatureMin` over `temperatureLow`. -/
theorem transformDailyWeather_temperature_preference
    (day : PirateWeatherDaily) (units : String) :
    (∀ q : ℚ, day.temperatureMax = some q → q ≠ 0 →
        (transformDailyWeather day units).temperatureMax = some q) ∧
    ((day.temperatureMax = none ∨ day.temperatureMax = some 0) →
        (transformDailyWeather day units).temperatureMax = day.temperatureHigh) ∧
    (∀ q : ℚ, day.temperatureMin = some q → q ≠ 0 →
        (transformDailyWeather day units).temperatureMin = some q) ∧
    ((day.temperatureMin = none ∨ day.temperatureMin = some 0) →
        (transformDailyWeather day units).temperatureMin = day.temperatureLow) := by
  refine ⟨?_, ?_, ?_, ?_⟩
  · intro q hq hne
    simp [transformDailyWeather, jsOrNum, hq, hne]
  · rintro (hq | hq) <;> simp [transformDailyWeather, jsOrNum, hq]
  · intro q hq hne
    simp [transformDailyWeather, jsOrNum, hq, hne]
  · rintro (hq | hq) <;> simp [transformDailyWeather, jsOrNum, hq]

/-- Witness for C5: a day with `temperatureMax = 20` keeps `20` even though
`temperatureHigh = 15`, and a day with `temperatureMax` absent falls back to
`temperatureHigh = 15`. -/
theorem transformDailyWeather_temperature_preference_witness :
    (transformDailyWeather (mkSampleDay 1) "us").temperatureMax = some 20 ∧
    (transformDailyWeather
        { mkSampleDay 1 with temperatureMax := none } "us").temperatureMax = some 15 :=
  ⟨(transformDailyWeather_temperature_preference (mkSampleDay 1) "us").1 20 rfl
      (by norm_num),
   (transformDailyWeather_temperature_preference
      { mkSampleDay 1 with temperatureMax := none } "us").2.1 (Or.inl rfl)⟩

/-- Claim C6: when the transport resolves with a non-success status, the
fetch fails with an error whose message includes the decimal status code and
the status text. -/
theorem fetchWeatherAsync_http_status_error
    (config : WeatherProviderConfig) (r : HttpResponse)
    (hkey : ¬ config.apiKey = "")
    (hcoord : (numFalsy config.latitude || numFalsy config.longitude) = false)
    (hok : r.ok = false) :
    ∃ pre mid : String,
      fetchWeatherAsync config (FetchOutcome.resolved r) =
        Except.error (pre ++ (toString r.status ++ (mid ++ r.statusText))) := by
  refine ⟨"Failed to fetch Pirate Weather data: Pirate Weather API error: ", " ", ?_⟩
  simp only [fetchWeatherAsync, tryFetchBody, if_neg hkey, hcoord, hok,
    Bool.false_eq_true, if_false, Bool.not_false, if_true]
  rw [String.append_assoc, String.append_assoc]
  rfl

/-- Witness for C6: a simulated 401 Unauthorized response yields an error
message carrying the text 401. -/
theorem fetchWeatherAsync_http_status_error_witness :
    ∃ pre mid : String,
      fetchWeatherAsync sampleConfig
          (FetchOutcome.resolved
            { ok := false, status := 401, statusText := "Unauthorized",
              json := Except.error JSThrown.notError }) =
        Except.error (pre ++ ("401" ++ (mid ++ "Unauthorized"))) :=
  fetchWeatherAsync_http_status_error sampleConfig
    { ok := false, status := 401, statusText := "Unauthorized",
      json := Except.error JSThrown.notError }
    (by decide) (by decide) rfl

/-- Claim C7: a failure thrown during body parsing is never surfaced raw —
the fetch re-wraps it, keeping the inner message after the fetch-failure
prefix when the thrown value carries one, and using the generic message
otherwise. -/
theorem fetchWeatherAsync_wraps_errors
    (config : WeatherProviderConfig) (r : HttpResponse) (e : JSThrown)
    (hkey : ¬ config.apiKey = "")
    (hcoord : (numFalsy config.latitude || numFalsy config.longitude) = false)
    (hok : r.ok = true) (hjson : r.json = Except.error e) :
    (∀ msg : String, e = JSThrown.isError msg →
        fetchWeatherAsync config (FetchOutcome.resolved r) =
          Except.error ("Failed to fetch Pirate Weather data: " ++ msg)) ∧
    (e = JSThrown.notError →
        fetchWeatherAsync config (FetchOutcome.resolved r) =
          Except.error "Failed to fetch Pirate Weather data") := by
  constructor
  · intro msg he
    subst he
    simp [fetchWeatherAsync, tryFetchBody, hkey, hcoord, hok, hjson]
  · intro he
    subst he
    simp [fetchWeatherAsync, tryFetchBody, hkey, hcoord, hok, hjson]

/-- Witness for C7: a malformed body rejecting with message `Unexpected
token` surfaces with the fetch-failure prefix, and a non-Error thrown value
surfaces as the generic message. -/
theorem fetchWeatherAsync_wraps_errors_witness :
    fetchWeatherAsync sampleConfig
        (FetchOutcome.resolved
          { ok := true, status := 200, statusText := "OK",
            json := Except.error (JSThrown.isError "Unexpected token") }) =
      Except.error ("Failed to fetch Pirate Weather data: " ++ "Unexpected token") ∧
    fetchWeatherAsync sampleConfig
        (FetchOutcome.resolved
          { ok := true, status := 200, statusText := "OK",
            json := Except.error JSThrown.notError }) =
      Except.error "Failed to fetch Pirate Weather data" :=
  ⟨(fetchWeatherAsync_wraps_errors sampleConfig
      { ok := true, status := 200, statusText := "OK",
        json := Except.error (JSThrown.isError "Unexpected token") }
      (JSThrown.isError "Unexpected token")
      (by decide) (by decide) rfl rfl).1 "Unexpected token" rfl,
   (fetchWeatherAsync_wraps_errors sampleConfig
      { ok := true, status := 200, statusText := "OK",
        json := Except.error JSThrown.notError }
      JSThrown.notError
      (by decide) (by decide) rfl rfl).2 rfl⟩

/-- Claim C10: the non-success status check runs inside the try block whose
catch re-wraps, so the surfaced network error is exactly the fetch-failure
prefix prepended to the status-bearing message — the same `Except.error`
over `String` shape as the parse errors, distinguished only by its
content. -/
theorem network_error_is_wrapped
    (config : WeatherProviderConfig) (r : HttpResponse)
    (hkey : ¬ config.apiKey = "")
    (hcoord : (numFalsy config.latitude || numFalsy config.longitude) = false)
    (hok : r.ok = false) :
    fetchWeatherAsync config (FetchOutcome.resolved r) =
      Except.error ("Failed to fetch Pirate Weather data: " ++
        ("Pirate Weather API error: " ++ toString r.status ++ " " ++ r.statusText)) := by
  simp [fetchWeatherAsync, tryFetchBody, hkey, hcoord, hok]

/-- Witness for C10: the wrapped 500 Internal Server Error message. -/
theorem network_error_is_wrapped_witness :
    fetchWeatherAsync sampleConfig
        (FetchOutcome.resolved
          { ok := false, status := 500, statusText := "Internal Server Error",
            json := Except.error JSThrown.notError }) =
      Except.error ("Failed to fetch Pirate Weather data: " ++
        ("Pirate Weather API error: " ++ toString (500 : Nat) ++ " "
          ++ "Internal Server Error")) :=
  network_error_is_wrapped sampleConfig
    { ok := false, status := 500, statusText := "Internal Server Error",
      json := Except.error JSThrown.notError }
    (by decide) (by decide) rfl

end PirateWeather
